import Mathlib

/-!
Shallow embedding of the authentication core of the Procurement-Blockchain
backend (src/backend/main.py), together with a model of the token helper
module `auth` that the backend imports.

The document store is modelled as in-memory lists of records; a Mongo
`find_one({"field": v})` becomes `List.find?` on the matching field.
Python truthiness of the loosely-typed fields is modelled explicitly:
a field read with `.get` is an `Option`, and the empty string / the
integer 0 are falsy.  The `role` field is three-state (absent /
present-null / present-string) because the code distinguishes a missing
key (`.get` default applies) from a key bound to `None` (the default does
not apply, and `None.lower()` raises, which the blanket `except` turns
into a 500).
-/

namespace ProcAuth

/-- A loosely-typed Mongo value appearing in `id` / `role_id` fields:
either an integer or a string. -/
inductive PyVal where
  | int (n : Int)
  | str (s : String)
  deriving DecidableEq, Repr

/-- Python truthiness of such a value: 0 and "" are falsy. -/
def PyVal.truthy : PyVal → Bool
  | .int n => n ≠ 0
  | .str s => s ≠ ""

/-- Python `str()` of such a value. -/
def PyVal.pyStr : PyVal → String
  | .int n => toString n
  | .str s => s

/-- Python `x or default` on an optional string field: `None` and `""`
are falsy, so the default is taken for both. -/
def pyOrStr (a : Option String) (b : String) : String :=
  match a with
  | none => b
  | some s => if s = "" then b else s

/-- A user document from the `users` collection.  Fields read by
`main.py` with `.get`; all optional.  `role` is `Option (Option String)`:
`none` = key absent, `some none` = key present holding null,
`some (some s)` = key present holding a string. -/
structure UserRecord where
  id : Option PyVal := none
  oid : Option String := none        -- the Mongo internal `_id`, as its string form
  username : Option String := none
  email : Option String := none
  password_hash : Option String := none
  password : Option String := none
  hashed_password : Option String := none
  is_active : Option Bool := none
  status : Option String := none
  role : Option (Option String) := none
  role_id : Option PyVal := none
  is_admin : Option Bool := none
  full_name : Option String := none
  name : Option String := none
  position : Option String := none
  department : Option String := none
  created_at : Option String := none
  updated_at : Option String := none
  deriving DecidableEq, Repr

/-- A role document from the `roles` collection.  `name` is three-state
like `UserRecord.role` (`role_doc.get("name", role_name)` keeps the
fallback only when the key is absent). -/
structure RoleRecord where
  id : Option Int := none
  oid : Option String := none
  name : Option (Option String) := none
  deriving DecidableEq, Repr

/-- The document store visible to the two endpoints: the `users` and
`roles` collections. -/
structure DB where
  users : List UserRecord
  roles : List RoleRecord
  deriving DecidableEq, Repr

/-- `main.py` lines 76-80: find the user by exact `username` match,
falling back to an `email` match on the same input. -/
def findUser (db : DB) (uname : String) : Option UserRecord :=
  match db.users.find? (fun u => u.username == some uname) with
  | some u => some u
  | none => db.users.find? (fun u => u.email == some uname)

/-- `main.py` line 89 together with the falsiness test on line 91:
`user.get("password_hash") or user.get("password") or user.get("hashed_password")`
yields the first truthy (non-empty) value; if every field is absent or
empty the chain is falsy and we return `none`. -/
def extractCred (u : UserRecord) : Option String :=
  match u.password_hash with
  | some s => if s ≠ "" then some s else
      match u.password with
      | some t => if t ≠ "" then some t else
          match u.hashed_password with
          | some w => if w ≠ "" then some w else none
          | none => none
      | none =>
          match u.hashed_password with
          | some w => if w ≠ "" then some w else none
          | none => none
  | none =>
      match u.password with
      | some t => if t ≠ "" then some t else
          match u.hashed_password with
          | some w => if w ≠ "" then some w else none
          | none => none
      | none =>
          match u.hashed_password with
          | some w => if w ≠ "" then some w else none
          | none => none

/-- `main.py` line 105: `user.get("is_active") is False or user.get("status") == "inactive"`. -/
def isInactive (u : UserRecord) : Bool :=
  u.is_active == some false || u.status == some "inactive"

/-- `main.py` line 117: fetch the role document referenced by `role_id`,
filtering on the numeric `id` field when the reference is an integer and
on `_id` otherwise. -/
def findRole (roles : List RoleRecord) (rid : PyVal) : Option RoleRecord :=
  match rid with
  | .int n => roles.find? (fun r => r.id == some n)
  | .str s => roles.find? (fun r => r.oid == some s)

/-- `main.py` lines 111-119: start from `user.get("role", "employee")`
(the default applies only when the key is absent), then, when a truthy
`role_id` is present and resolves to a role document, take that
document's `name` (keeping the previous value only when the `name` key
is absent).  A result of `none` is Python's `None` flowing into
`role_name`. -/
def resolveRole (roles : List RoleRecord) (u : UserRecord) : Option String :=
  let role_name : Option String :=
    match u.role with
    | none => some "employee"
    | some v => v
  match u.role_id with
  | none => role_name
  | some rid =>
    if rid.truthy then
      match findRole roles rid with
      | none => role_name
      | some rd =>
        match rd.name with
        | none => role_name
        | some v => v
    else role_name

/-- `main.py` lines 125-130: `user_id = user.get("id")`; when that is
absent or falsy and a truthy `_id` exists, use `str(_id)`; when still
falsy, fall back to the integer 0. -/
def resolveUserId (u : UserRecord) : PyVal :=
  let v0 : PyVal := (u.id).getD (.int 0)
  let v1 : PyVal :=
    if !v0.truthy then
      match u.oid with
      | some s => if s ≠ "" then .str s else v0
      | none => v0
    else v0
  if !v1.truthy then .int 0 else v1

/-- Digit-string test matching Python's `str.isdigit()` on ASCII input:
non-empty and all characters decimal digits. -/
def isDigits (s : String) : Bool :=
  !s.data.isEmpty && s.data.all Char.isDigit

/-- Decimal parse of a digit string, as Python's `int()`. -/
def strToNat (s : String) : Nat :=
  s.data.foldl (fun a c => a * 10 + (c.toNat - 48)) 0

/-- ASCII lowercasing of one character, as Python's `str.lower` acts on
the role names appearing here. -/
def lowerChar (c : Char) : Char :=
  if c.isUpper then Char.ofNat (c.toNat + 32) else c

/-- Python's `str.lower()` on ASCII strings. -/
def pyLower (s : String) : String :=
  String.mk (s.data.map lowerChar)

/-- `main.py` line 150:
`int(user_id) if str(user_id).isdigit() else hash(str(user_id)) % 2147483647`,
as a function of the string form of the identifier.  `h` stands for
Python's builtin string `hash`, an external function fixed for the
process; it may be negative, and Python `%` with a positive modulus
yields a value in `[0, 2147483647)`, which `Int.emod` matches. -/
def canonicalId (h : String → Int) (s : String) : Int :=
  if isDigits s then (strToNat s : Int) else h s % 2147483647

/-- `main.py` lines 141-146 (`format_datetime`): falsy input (None or the
empty string) becomes null; anything else is kept in its string form
(datetimes are modelled already in their `isoformat` string form). -/
def format_datetime (dt : Option String) : Option String :=
  match dt with
  | none => none
  | some s => if s = "" then none else some s

/-- The JWT payload data assembled by `login` (lines 133-137):
subject, identity (as a string) and role. -/
structure TokenData where
  sub : String
  user_id : String
  role : String
  deriving DecidableEq, Repr

/-- Modelled from the spec: the signed token produced by the missing
`auth` module's `create_access_token`: a tamper-evident envelope holding
the claims, issued-at, expires-at and a signature over all of them made
with the symmetric secret. -/
structure Token where
  data : TokenData
  iat : Nat
  exp : Nat
  sig : String
  deriving DecidableEq, Repr

/-- Modelled from the spec: the symmetric signature (MAC) over the
claims, a deterministic function of the process-wide secret and the
signed fields. -/
def macSign (secret : String) (d : TokenData) (iat exp : Nat) : String :=
  secret ++ "|" ++ d.sub ++ "|" ++ d.user_id ++ "|" ++ d.role ++ "|" ++
    toString iat ++ "|" ++ toString exp

/-- Modelled from the spec: the token TTL in seconds — a fixed
configured duration (the spec's default short-lived window of 30
minutes). -/
def ACCESS_TOKEN_EXPIRE_SECONDS : Nat := 30 * 60

/-- Modelled from the spec: `auth.create_access_token` (not under src/)
embeds the claims with issued-at `now` and expires-at `now + TTL` into a
signed envelope. -/
def create_access_token (secret : String) (now : Nat) (d : TokenData) : Token :=
  { data := d
    iat := now
    exp := now + ACCESS_TOKEN_EXPIRE_SECONDS
    sig := macSign secret d now (now + ACCESS_TOKEN_EXPIRE_SECONDS) }

/-- Modelled from the spec: `auth.decode_access_token` (not under src/)
verifies the signature against the same secret and rejects when the
signature does not match or the current time is at/after expires-at; on
success it recovers the embedded claims, on any failure it yields
`none`. -/
def decode_access_token (secret : String) (now : Nat) (t : Token) : Option TokenData :=
  if t.sig == macSign secret t.data t.iat t.exp && now < t.exp then
    some t.data
  else none

/-- The error outcomes of the login endpoint, as the `HTTPException`
kinds raised in `main.py` (the blanket `except Exception` on line 177
gives the 500 case). -/
inductive AuthErr where
  | invalidCredentials
  | accountDisabled
  | internalError
  deriving DecidableEq, Repr

/-- HTTP status attached to each login error (`main.py` lines 84, 107, 183). -/
def AuthErr.httpStatus : AuthErr → Nat
  | .invalidCredentials => 401
  | .accountDisabled => 403
  | .internalError => 500

/-- Outward detail message of each login error (`main.py` lines 86, 108;
the 500 branch carries a generic prefix). -/
def AuthErr.detail : AuthErr → String
  | .invalidCredentials => "Invalid username or password"
  | .accountDisabled => "User account is disabled"
  | .internalError => "An error occurred during login"

/-- The success payload of `/api/auth/login`: the user object built on
lines 155-165 (exactly the fields of the frontend `User` interface) and
the issued token. -/
structure UserSummary where
  id : Int
  username : String
  full_name : String
  position : String
  department : String
  role : String
  is_admin : Bool
  created_at : Option String
  updated_at : Option String
  deriving DecidableEq, Repr

structure LoginOk where
  access_token : Token
  user : UserSummary
  deriving DecidableEq, Repr

/-- `main.py` lines 111-173, the part of `login` after the credential
and active checks: role resolution, admin flag, identifier resolution,
token creation and response assembly.  Computed from the found record
`u` and the `roles` collection only; the `none` role (Python `None`
surviving into `role_name`) makes `role_name.lower()` on line 122 raise,
which the blanket handler turns into the 500 outcome.  On line 150,
`int(user_id)` coincides with parsing `str(user_id)` whenever the latter
is all digits, so both branches are functions of the string form. -/
def loginSuccess (roles : List RoleRecord) (h : String → Int) (secret : String)
    (now : Nat) (u : UserRecord) : Except AuthErr LoginOk :=
  match resolveRole roles u with
  | none => .error .internalError
  | some role_name =>
    let is_admin := pyLower role_name == "admin" || u.is_admin.getD false
    let uid := resolveUserId u
    let uidStr := uid.pyStr
    let token_data : TokenData :=
      { sub := u.username.getD "", user_id := uidStr, role := role_name }
    let access_token := create_access_token secret now token_data
    let user_id_int := canonicalId h uidStr
    .ok
      { access_token := access_token
        user :=
          { id := user_id_int
            username := pyOrStr u.username ""
            full_name := pyOrStr u.full_name (pyOrStr u.name "")
            position := pyOrStr u.position ""
            department := pyOrStr u.department ""
            role := role_name
            is_admin := is_admin
            created_at := format_datetime u.created_at
            updated_at := format_datetime u.updated_at } }

/-- The login request body (`models.py` `LoginRequest`). -/
structure LoginRequest where
  username : String
  password : String
  deriving DecidableEq, Repr

/-- `main.py` `login` (lines 67-185).  `vp` stands for
`auth.verify_password` (the `auth` module is not under src/; per the
spec it is a hash-aware comparison with a legacy plaintext-equality
fallback — here an abstract boolean function of the submitted and stored
values).  The order of checks follows the source: lookup, credential
extraction, password comparison, active check, then `loginSuccess`. -/
def login (db : DB) (vp : String → String → Bool) (h : String → Int)
    (secret : String) (now : Nat) (req : LoginRequest) : Except AuthErr LoginOk :=
  match findUser db req.username with
  | none => .error .invalidCredentials
  | some u =>
    match extractCred u with
    | none => .error .invalidCredentials
    | some cred =>
      if !vp req.password cred then .error .invalidCredentials
      else if isInactive u then .error .accountDisabled
      else loginSuccess db.roles h secret now u

/-- The error outcomes of `/api/auth/me` (`main.py` lines 196-262). -/
inductive MeErr where
  | unauthorized
  | notFound
  | internalError
  deriving DecidableEq, Repr

/-- HTTP status attached to each `/me` error (lines 198, 212, 260). -/
def MeErr.httpStatus : MeErr → Nat
  | .unauthorized => 401
  | .notFound => 404
  | .internalError => 500

/-- `main.py` lines 216-255, the part of `get_current_user` after the
user is found: the same role / admin / identifier resolution as `login`,
assembling the same user object shape. -/
def meSuccess (roles : List RoleRecord) (h : String → Int) (u : UserRecord) :
    Except MeErr UserSummary :=
  match resolveRole roles u with
  | none => .error .internalError
  | some role_name =>
    let is_admin := pyLower role_name == "admin" || u.is_admin.getD false
    let uid := resolveUserId u
    let user_id_int := canonicalId h uid.pyStr
    .ok
      { id := user_id_int
        username := pyOrStr u.username ""
        full_name := pyOrStr u.full_name (pyOrStr u.name "")
        position := pyOrStr u.position ""
        department := pyOrStr u.department ""
        role := role_name
        is_admin := is_admin
        created_at := format_datetime u.created_at
        updated_at := format_datetime u.updated_at }

/-- `main.py` `get_current_user` (lines 189-262): decode the bearer
token (401 when that fails), look the subject up by `username` only (404
when absent), then build the user object. -/
def get_current_user (db : DB) (h : String → Int) (secret : String) (now : Nat)
    (tok : Token) : Except MeErr UserSummary :=
  match decode_access_token secret now tok with
  | none => .error .unauthorized
  | some payload =>
    match db.users.find? (fun u => u.username == some payload.sub) with
    | none => .error .notFound
    | some u => meSuccess db.roles h u

/-- `main.py` `verify_token` (lines 266-286): decode the bearer token
and return the embedded claims without re-fetching from the store. -/
def verify_token (secret : String) (now : Nat) (tok : Token) :
    Option TokenData :=
  match decode_access_token secret now tok with
  | none => none
  | some payload => some ⟨payload.sub, payload.user_id, payload.role⟩

/-! ### Inversion lemmas -/

lemma login_ok_inv {db : DB} {vp : String → String → Bool} {h : String → Int}
    {secret : String} {now : Nat} {req : LoginRequest} {r : LoginOk}
    (hl : login db vp h secret now req = .ok r) :
    ∃ u, findUser db req.username = some u ∧
      loginSuccess db.roles h secret now u = .ok r := by
  unfold login at hl
  split at hl
  next => exact absurd hl (by simp)
  next u hf =>
    split at hl
    next => exact absurd hl (by simp)
    next c _ =>
      split at hl
      next => exact absurd hl (by simp)
      next =>
        split at hl
        next => exact absurd hl (by simp)
        next => exact ⟨u, hf, hl⟩

lemma loginSuccess_ok_inv {roles : List RoleRecord} {h : String → Int}
    {secret : String} {now : Nat} {u : UserRecord} {r : LoginOk}
    (hs : loginSuccess roles h secret now u = .ok r) :
    ∃ role_name, resolveRole roles u = some role_name ∧
      r.access_token =
        create_access_token secret now
          ⟨u.username.getD "", (resolveUserId u).pyStr, role_name⟩ ∧
      r.access_token.data.user_id = (resolveUserId u).pyStr ∧
      r.user.id = canonicalId h (resolveUserId u).pyStr := by
  unfold loginSuccess at hs
  cases hrole : resolveRole roles u with
  | none => rw [hrole] at hs; exact absurd hs (by simp)
  | some rn =>
    rw [hrole] at hs
    simp only [Except.ok.injEq] at hs
    refine ⟨rn, rfl, by rw [← hs], ?_, by rw [← hs]⟩
    rw [← hs]
    rfl

/-! ### Theorems for the claims -/

/-- C1: a login whose username matches no record (by username or email)
and a login whose username matches a record but whose password fails the
comparison both fail with the same `invalidCredentials` error kind, so
the outward error (status 401, detail "Invalid username or password") is
identical and the two cases are indistinguishable to the caller. -/
theorem login_invalid_credentials_indistinguishable
    (db : DB) (vp : String → String → Bool) (h : String → Int)
    (secret : String) (now : Nat) (req : LoginRequest) :
    (findUser db req.username = none →
      login db vp h secret now req = .error .invalidCredentials)
    ∧ (∀ u c, findUser db req.username = some u → extractCred u = some c →
        vp req.password c = false →
        login db vp h secret now req = .error .invalidCredentials)
    ∧ AuthErr.invalidCredentials.httpStatus = 401
    ∧ AuthErr.invalidCredentials.detail = "Invalid username or password" := by
  refine ⟨?_, ?_, rfl, rfl⟩
  · intro hf; simp [login, hf]
  · intro u c hf hc hv; simp [login, hf, hc, hv]

theorem login_invalid_credentials_indistinguishable_witness :
    login ⟨[{ username := some "alice", password_hash := some "pw" }], []⟩
        (fun a b => a == b) (fun s => (s.length : Int)) "sec" 0
        ⟨"bob", "pw"⟩ = .error .invalidCredentials
    ∧ login ⟨[{ username := some "alice", password_hash := some "pw" }], []⟩
        (fun a b => a == b) (fun s => (s.length : Int)) "sec" 0
        ⟨"alice", "wrong"⟩ = .error .invalidCredentials :=
  ⟨(login_invalid_credentials_indistinguishable
      ⟨[{ username := some "alice", password_hash := some "pw" }], []⟩
      (fun a b => a == b) (fun s => (s.length : Int)) "sec" 0
      ⟨"bob", "pw"⟩).1 (by decide),
   (login_invalid_credentials_indistinguishable
      ⟨[{ username := some "alice", password_hash := some "pw" }], []⟩
      (fun a b => a == b) (fun s => (s.length : Int)) "sec" 0
      ⟨"alice", "wrong"⟩).2.1
      { username := some "alice", password_hash := some "pw" } "pw"
      (by decide) (by decide) (by decide)⟩

/-- C2: against an inactive record (is_active explicitly false or status
"inactive") a login with the correct password fails with
`accountDisabled`, and a login with a wrong password fails with
`invalidCredentials` — the password comparison precedes the active
check. -/
theorem login_inactive_account (db : DB) (vp : String → String → Bool)
    (h : String → Int) (secret : String) (now : Nat) (req : LoginRequest)
    (u : UserRecord) (c : String)
    (hf : findUser db req.username = some u)
    (hc : extractCred u = some c)
    (hin : isInactive u = true) :
    (vp req.password c = true →
      login db vp h secret now req = .error .accountDisabled)
    ∧ (vp req.password c = false →
      login db vp h secret now req = .error .invalidCredentials) := by
  constructor
  · intro hv; simp [login, hf, hc, hv, hin]
  · intro hv; simp [login, hf, hc, hv]

theorem login_inactive_account_witness :
    login ⟨[{ username := some "bob", password := some "plaintextpw", is_active := some false }], []⟩
        (fun a b => a == b) (fun s => (s.length : Int)) "sec" 0
        ⟨"bob", "plaintextpw"⟩ = .error .accountDisabled
    ∧ login ⟨[{ username := some "bob", password := some "plaintextpw", is_active := some false }], []⟩
        (fun a b => a == b) (fun s => (s.length : Int)) "sec" 0
        ⟨"bob", "wrong"⟩ = .error .invalidCredentials :=
  ⟨(login_inactive_account
      ⟨[{ username := some "bob", password := some "plaintextpw", is_active := some false }], []⟩
      (fun a b => a == b) (fun s => (s.length : Int)) "sec" 0
      ⟨"bob", "plaintextpw"⟩
      { username := some "bob", password := some "plaintextpw", is_active := some false } "plaintextpw"
      (by decide) (by decide) (by decide)).1 (by decide),
   (login_inactive_account
      ⟨[{ username := some "bob", password := some "plaintextpw", is_active := some false }], []⟩
      (fun a b => a == b) (fun s => (s.length : Int)) "sec" 0
      ⟨"bob", "wrong"⟩
      { username := some "bob", password := some "plaintextpw", is_active := some false } "plaintextpw"
      (by decide) (by decide) (by decide)).2 (by decide)⟩

/-- C3: a token issued by `create_access_token` — in particular the one
embedded in any successful login response — is immediately accepted by
`decode_access_token` with the same secret and clock, and the recovered
claims are exactly the subject / identity / role embedded at issuance. -/
theorem issue_then_validate_roundtrip (secret : String) (now : Nat) :
    (∀ d : TokenData,
      decode_access_token secret now (create_access_token secret now d) = some d)
    ∧ (∀ (db : DB) (vp : String → String → Bool) (h : String → Int)
        (req : LoginRequest) (r : LoginOk),
        login db vp h secret now req = .ok r →
        decode_access_token secret now r.access_token = some r.access_token.data) := by
  have hrt : ∀ d : TokenData,
      decode_access_token secret now (create_access_token secret now d) = some d := by
    intro d
    simp [decode_access_token, create_access_token, ACCESS_TOKEN_EXPIRE_SECONDS]
  refine ⟨hrt, ?_⟩
  intro db vp h req r hl
  obtain ⟨u, _, hs⟩ := login_ok_inv hl
  obtain ⟨rn, _, htok, _, _⟩ := loginSuccess_ok_inv hs
  rw [htok]
  exact hrt _

theorem issue_then_validate_roundtrip_witness :
    decode_access_token "sec" 0
        (create_access_token "sec" 0 ⟨"alice", "1", "employee"⟩)
      = some ⟨"alice", "1", "employee"⟩
    ∧ login ⟨[{ id := some (.int 1), username := some "alice", password_hash := some "pw" }], []⟩
        (fun a b => a == b) (fun s => (s.length : Int)) "sec" 0 ⟨"alice", "pw"⟩
      = .ok { access_token := { data := ⟨"alice", "1", "employee"⟩, iat := 0, exp := 1800,
                                sig := "sec|alice|1|employee|0|1800" },
              user := { id := 1, username := "alice", full_name := "", position := "",
                        department := "", role := "employee", is_admin := false,
                        created_at := none, updated_at := none } }
    ∧ decode_access_token "sec" 0
        { data := ⟨"alice", "1", "employee"⟩, iat := 0, exp := 1800,
          sig := "sec|alice|1|employee|0|1800" }
      = some ⟨"alice", "1", "employee"⟩ :=
  ⟨(issue_then_validate_roundtrip "sec" 0).1 ⟨"alice", "1", "employee"⟩, rfl,
   (issue_then_validate_roundtrip "sec" 0).2
      ⟨[{ id := some (.int 1), username := some "alice", password_hash := some "pw" }], []⟩
      (fun a b => a == b) (fun s => (s.length : Int)) ⟨"alice", "pw"⟩
      { access_token := { data := ⟨"alice", "1", "employee"⟩, iat := 0, exp := 1800,
                          sig := "sec|alice|1|employee|0|1800" },
        user := { id := 1, username := "alice", full_name := "", position := "",
                  department := "", role := "employee", is_admin := false,
                  created_at := none, updated_at := none } }
      rfl⟩

/-- C4 counterexample: with an opaque (non-digit) stored identifier the
response id and the token's user_id claim do not agree.  Store: one user
whose only identifier is the internal `_id` string "deadbeef"; the
process hash maps every string to 7.  The response id is 7, while the
token claim is the raw string "deadbeef": the claimed agreement fails. -/
theorem login_id_token_claim_disagree :
    (login ⟨[{ oid := some "deadbeef", username := some "alice", password_hash := some "pw" }], []⟩
        (fun a b => a == b) (fun _ => 7) "sec" 0 ⟨"alice", "pw"⟩).map
      (fun r => toString r.user.id) = .ok "7"
    ∧ (login ⟨[{ oid := some "deadbeef", username := some "alice", password_hash := some "pw" }], []⟩
        (fun a b => a == b) (fun _ => 7) "sec" 0 ⟨"alice", "pw"⟩).map
      (fun r => r.access_token.data.user_id) = .ok "deadbeef"
    ∧ "7" ≠ "deadbeef" := by
  refine ⟨?_, ?_, by decide⟩ <;> rfl

/-- C4 (amended): on every successful login the token's user_id claim is
the raw string form of the resolved identifier, and the response id is
the deterministic canonical-id derivation applied to that same string,
so `canonicalId h (token user_id) = response id`; the two denote the
same integer exactly when the claim string is all digits. -/
theorem login_id_canonical_of_token_claim
    (db : DB) (vp : String → String → Bool) (h : String → Int)
    (secret : String) (now : Nat) (req : LoginRequest) (r : LoginOk)
    (u : UserRecord)
    (hl : login db vp h secret now req = .ok r)
    (hf : findUser db req.username = some u) :
    r.user.id = canonicalId h r.access_token.data.user_id
    ∧ r.access_token.data.user_id = (resolveUserId u).pyStr := by
  obtain ⟨w, hfw, hs⟩ := login_ok_inv hl
  rw [hf] at hfw
  obtain rfl : u = w := Option.some.inj hfw
  obtain ⟨rn, _, _, hdata, hid⟩ := loginSuccess_ok_inv hs
  exact ⟨by rw [hid, hdata], hdata⟩

theorem login_id_canonical_of_token_claim_witness :
    login ⟨[{ oid := some "deadbeef", username := some "alice", password_hash := some "pw" }], []⟩
        (fun a b => a == b) (fun _ => 7) "sec" 0 ⟨"alice", "pw"⟩
      = .ok { access_token := { data := ⟨"alice", "deadbeef", "employee"⟩, iat := 0, exp := 1800,
                                sig := "sec|alice|deadbeef|employee|0|1800" },
              user := { id := 7, username := "alice", full_name := "", position := "",
                        department := "", role := "employee", is_admin := false,
                        created_at := none, updated_at := none } }
    ∧ (7 : Int) = canonicalId (fun _ => 7) "deadbeef"
    ∧ "deadbeef" =
        (resolveUserId { oid := some "deadbeef", username := some "alice", password_hash := some "pw" }).pyStr :=
  ⟨rfl,
   (login_id_canonical_of_token_claim
      ⟨[{ oid := some "deadbeef", username := some "alice", password_hash := some "pw" }], []⟩
      (fun a b => a == b) (fun _ => 7) "sec" 0 ⟨"alice", "pw"⟩
      { access_token := { data := ⟨"alice", "deadbeef", "employee"⟩, iat := 0, exp := 1800,
                          sig := "sec|alice|deadbeef|employee|0|1800" },
        user := { id := 7, username := "alice", full_name := "", position := "",
                  department := "", role := "employee", is_admin := false,
                  created_at := none, updated_at := none } }
      { oid := some "deadbeef", username := some "alice", password_hash := some "pw" }
      rfl rfl).1,
   (login_id_canonical_of_token_claim
      ⟨[{ oid := some "deadbeef", username := some "alice", password_hash := some "pw" }], []⟩
      (fun a b => a == b) (fun _ => 7) "sec" 0 ⟨"alice", "pw"⟩
      { access_token := { data := ⟨"alice", "deadbeef", "employee"⟩, iat := 0, exp := 1800,
                          sig := "sec|alice|deadbeef|employee|0|1800" },
        user := { id := 7, username := "alice", full_name := "", position := "",
                  department := "", role := "employee", is_admin := false,
                  created_at := none, updated_at := none } }
      { oid := some "deadbeef", username := some "alice", password_hash := some "pw" }
      rfl rfl).2⟩

/-- C5: the canonical-id derivation is a deterministic function of the
identifier string (and the process-wide string hash): an all-digit
string is parsed as the integer it spells, any other string is hashed
and reduced modulo 2147483647 into `[0, 2147483647)`, and equal inputs
always yield equal outputs. -/
theorem canonicalId_deterministic (h : String → Int) (s : String) :
    (isDigits s = true → canonicalId h s = strToNat s)
    ∧ (isDigits s = false →
        canonicalId h s = h s % 2147483647
        ∧ 0 ≤ canonicalId h s ∧ canonicalId h s < 2147483647)
    ∧ (∀ s', s' = s → canonicalId h s' = canonicalId h s) := by
  refine ⟨?_, ?_, fun s' hss => by rw [hss]⟩
  · intro hd; simp [canonicalId, hd]
  · intro hd
    have he : canonicalId h s = h s % 2147483647 := by simp [canonicalId, hd]
    refine ⟨he, ?_, ?_⟩
    · rw [he]
      exact Int.emod_nonneg _ (by norm_num)
    · rw [he]
      exact Int.emod_lt_of_pos _ (by norm_num)

theorem canonicalId_deterministic_witness :
    (isDigits "123" = true ∧ canonicalId (fun s => (s.length : Int)) "123" = 123)
    ∧ (isDigits "deadbeef" = false
        ∧ canonicalId (fun s => (s.length : Int)) "deadbeef" = 8 % 2147483647) :=
  ⟨⟨by decide,
    by rw [(canonicalId_deterministic (fun s => (s.length : Int)) "123").1 (by decide)]; decide⟩,
   ⟨by decide,
    ((canonicalId_deterministic (fun s => (s.length : Int)) "deadbeef").2.1 (by decide)).1⟩⟩

/-- C6: the credential compared at login is selected in the fixed
priority order password_hash, password, hashed_password — the first
truthy (non-empty) value winning — and when none of the three yields a
value the login fails with `invalidCredentials`. -/
theorem cred_priority_order (db : DB) (vp : String → String → Bool)
    (h : String → Int) (secret : String) (now : Nat) (req : LoginRequest)
    (u : UserRecord) (hf : findUser db req.username = some u) :
    (extractCred u = none →
      login db vp h secret now req = .error .invalidCredentials)
    ∧ (∀ s, u.password_hash = some s → s ≠ "" → extractCred u = some s)
    ∧ (∀ s, (u.password_hash = none ∨ u.password_hash = some "") →
        u.password = some s → s ≠ "" → extractCred u = some s)
    ∧ (∀ s, (u.password_hash = none ∨ u.password_hash = some "") →
        (u.password = none ∨ u.password = some "") →
        u.hashed_password = some s → s ≠ "" → extractCred u = some s)
    ∧ ((u.password_hash = none ∨ u.password_hash = some "") →
        (u.password = none ∨ u.password = some "") →
        (u.hashed_password = none ∨ u.hashed_password = some "") →
        extractCred u = none) := by
  refine ⟨?_, ?_, ?_, ?_, ?_⟩
  · intro hc; simp [login, hf, hc]
  · intro s h1 h2; simp [extractCred, h1, h2]
  · rintro s (h1 | h1) h2 h3 <;> simp [extractCred, h1, h2, h3]
  · rintro s (h1 | h1) (h2 | h2) h3 h4 <;> simp [extractCred, h1, h2, h3, h4]
  · rintro (h1 | h1) (h2 | h2) (h3 | h3) <;> simp [extractCred, h1, h2, h3]

theorem cred_priority_order_witness :
    login ⟨[{ username := some "carol" }], []⟩ (fun a b => a == b)
        (fun s => (s.length : Int)) "sec" 0 ⟨"carol", "pw"⟩
      = .error .invalidCredentials
    ∧ extractCred { username := some "carol", password_hash := some "h1", password := some "h2", hashed_password := some "h3" } = some "h1"
    ∧ extractCred { username := some "carol", password_hash := some "", password := some "h2", hashed_password := some "h3" } = some "h2"
    ∧ extractCred { username := some "carol", password_hash := some "", password := none, hashed_password := some "h3" } = some "h3"
    ∧ extractCred { username := some "carol", password_hash := some "", password := some "", hashed_password := none } = none :=
  ⟨(cred_priority_order ⟨[{ username := some "carol" }], []⟩ (fun a b => a == b)
      (fun s => (s.length : Int)) "sec" 0 ⟨"carol", "pw"⟩
      { username := some "carol" } (by decide)).1 (by decide),
   (cred_priority_order
      ⟨[{ username := some "carol", password_hash := some "h1", password := some "h2", hashed_password := some "h3" }], []⟩
      (fun a b => a == b)
      (fun s => (s.length : Int)) "sec" 0 ⟨"carol", "pw"⟩
      { username := some "carol", password_hash := some "h1", password := some "h2", hashed_password := some "h3" }
      (by decide)).2.1 "h1" rfl (by decide),
   (cred_priority_order
      ⟨[{ username := some "carol", password_hash := some "", password := some "h2", hashed_password := some "h3" }], []⟩
      (fun a b => a == b)
      (fun s => (s.length : Int)) "sec" 0 ⟨"carol", "pw"⟩
      { username := some "carol", password_hash := some "", password := some "h2", hashed_password := some "h3" }
      (by decide)).2.2.1 "h2" (Or.inr rfl) rfl (by decide),
   (cred_priority_order
      ⟨[{ username := some "carol", password_hash := some "", password := none, hashed_password := some "h3" }], []⟩
      (fun a b => a == b)
      (fun s => (s.length : Int)) "sec" 0 ⟨"carol", "pw"⟩
      { username := some "carol", password_hash := some "", password := none, hashed_password := some "h3" }
      (by decide)).2.2.2.1 "h3" (Or.inr rfl) (Or.inl rfl) rfl (by decide),
   (cred_priority_order
      ⟨[{ username := some "carol", password_hash := some "", password := some "", hashed_password := none }], []⟩
      (fun a b => a == b)
      (fun s => (s.length : Int)) "sec" 0 ⟨"carol", "pw"⟩
      { username := some "carol", password_hash := some "", password := some "", hashed_password := none }
      (by decide)).2.2.2.2 (Or.inr rfl) (Or.inr rfl) (Or.inl rfl)⟩

/-- Replace the three credential fields of a record, leaving every other
field unchanged. -/
def setCreds (u : UserRecord) (c1 c2 c3 : Option String) : UserRecord :=
  { u with password_hash := c1, password := c2, hashed_password := c3 }

lemma find?_singleton_eq {α} (p : α → Bool) (x : α) :
    List.find? p [x] = if p x then some x else none := by
  by_cases h : p x <;> simp [List.find?, h]

lemma findUser_singleton {x : UserRecord} {rs : List RoleRecord} {nm : String}
    {y : UserRecord} (hy : findUser ⟨[x], rs⟩ nm = some y) : y = x := by
  unfold findUser at hy
  rw [find?_singleton_eq] at hy
  by_cases h1 : (x.username == some nm) = true
  · rw [if_pos h1] at hy
    simpa using hy.symm
  · rw [if_neg h1] at hy
    simp only [] at hy
    rw [find?_singleton_eq] at hy
    by_cases h2 : (x.email == some nm) = true
    · rw [if_pos h2] at hy
      simpa using hy.symm
    · rw [if_neg h2] at hy
      exact absurd hy (by simp)

lemma me_ok_inv {db : DB} {h : String → Int} {secret : String} {now : Nat}
    {tok : Token} {m : UserSummary}
    (hm : get_current_user db h secret now tok = .ok m) :
    ∃ p u, decode_access_token secret now tok = some p ∧
      db.users.find? (fun w => w.username == some p.sub) = some u ∧
      meSuccess db.roles h u = .ok m := by
  unfold get_current_user at hm
  split at hm
  next => exact absurd hm (by simp)
  next p _ =>
    split at hm
    next => exact absurd hm (by simp)
    next u hu => exact ⟨p, u, by assumption, hu, hm⟩

lemma setCreds_loginSuccess (rs : List RoleRecord) (h : String → Int)
    (secret : String) (now : Nat) (u : UserRecord) (c1 c2 c3 : Option String) :
    loginSuccess rs h secret now (setCreds u c1 c2 c3) =
      loginSuccess rs h secret now u := by
  cases u; rfl

lemma setCreds_meSuccess (rs : List RoleRecord) (h : String → Int)
    (u : UserRecord) (c1 c2 c3 : Option String) :
    meSuccess rs h (setCreds u c1 c2 c3) = meSuccess rs h u := by
  cases u; rfl

/-- C7: the response user object of both the login and the `/me` flow is
built only from the non-credential fields of the stored record — its
shape is exactly the `UserSummary` fields — so replacing the
`password_hash` / `password` / `hashed_password` fields arbitrarily
never changes a successful response: no credential material reaches any
response. -/
theorem response_excludes_credentials
    (u : UserRecord) (c1 c2 c3 : Option String) (rs : List RoleRecord)
    (vp vp' : String → String → Bool) (h : String → Int) (secret : String)
    (now : Nat) (req : LoginRequest) (tok : Token)
    (r r' : LoginOk) (m m' : UserSummary) :
    (login ⟨[u], rs⟩ vp h secret now req = .ok r →
      login ⟨[setCreds u c1 c2 c3], rs⟩ vp' h secret now req = .ok r' →
      r = r')
    ∧ (get_current_user ⟨[u], rs⟩ h secret now tok = .ok m →
      get_current_user ⟨[setCreds u c1 c2 c3], rs⟩ h secret now tok = .ok m' →
      m = m') := by
  constructor
  · intro hl hl'
    obtain ⟨w, hfw, hsw⟩ := login_ok_inv hl
    obtain ⟨w', hfw', hsw'⟩ := login_ok_inv hl'
    rw [findUser_singleton hfw] at hsw
    rw [findUser_singleton hfw', setCreds_loginSuccess] at hsw'
    have hrr : (Except.ok r : Except AuthErr LoginOk) = .ok r' := by
      rw [← hsw, ← hsw']
    exact Except.ok.inj hrr
  · intro hm hm'
    obtain ⟨p, w, hp, hw, hs⟩ := me_ok_inv hm
    obtain ⟨p', w', hp', hw', hs'⟩ := me_ok_inv hm'
    obtain rfl : p = p' := Option.some.inj (hp ▸ hp')
    have ew : w = u := by
      rw [find?_singleton_eq] at hw
      by_cases hb : (u.username == some p.sub) = true
      · rw [if_pos hb] at hw; exact (Option.some.inj hw).symm
      · rw [if_neg hb] at hw; exact absurd hw (by simp)
    have ew' : w' = setCreds u c1 c2 c3 := by
      rw [find?_singleton_eq] at hw'
      by_cases hb : ((setCreds u c1 c2 c3).username == some p.sub) = true
      · rw [if_pos hb] at hw'; exact (Option.some.inj hw').symm
      · rw [if_neg hb] at hw'; exact absurd hw' (by simp)
    rw [ew] at hs
    rw [ew', setCreds_meSuccess] at hs'
    have hmm : (Except.ok m : Except MeErr UserSummary) = .ok m' := by
      rw [← hs, ← hs']
    exact Except.ok.inj hmm

theorem response_excludes_credentials_witness :
    (login ⟨[{ id := some (.int 5), username := some "dana", password_hash := some "pw1" }], []⟩
        (fun a b => a == b) (fun s => (s.length : Int)) "sec" 0 ⟨"dana", "pw1"⟩
      = .ok { access_token := { data := ⟨"dana", "5", "employee"⟩, iat := 0, exp := 1800,
                                sig := "sec|dana|5|employee|0|1800" },
              user := { id := 5, username := "dana", full_name := "", position := "",
                        department := "", role := "employee", is_admin := false,
                        created_at := none, updated_at := none } }
      ∧ login ⟨[setCreds { id := some (.int 5), username := some "dana", password_hash := some "pw1" }
            (some "zz") none none], []⟩
          (fun _ _ => true) (fun s => (s.length : Int)) "sec" 0 ⟨"dana", "pw1"⟩
        = .ok { access_token := { data := ⟨"dana", "5", "employee"⟩, iat := 0, exp := 1800,
                                  sig := "sec|dana|5|employee|0|1800" },
                user := { id := 5, username := "dana", full_name := "", position := "",
                          department := "", role := "employee", is_admin := false,
                          created_at := none, updated_at := none } })
    ∧ (get_current_user
          ⟨[{ id := some (.int 5), username := some "dana", password_hash := some "pw1" }], []⟩
          (fun s => (s.length : Int)) "sec" 0
          { data := ⟨"dana", "5", "employee"⟩, iat := 0, exp := 1800,
            sig := "sec|dana|5|employee|0|1800" }
        = .ok { id := 5, username := "dana", full_name := "", position := "",
                department := "", role := "employee", is_admin := false,
                created_at := none, updated_at := none }
      ∧ get_current_user
          ⟨[setCreds { id := some (.int 5), username := some "dana", password_hash := some "pw1" }
              (some "zz") none none], []⟩
          (fun s => (s.length : Int)) "sec" 0
          { data := ⟨"dana", "5", "employee"⟩, iat := 0, exp := 1800,
            sig := "sec|dana|5|employee|0|1800" }
        = .ok { id := 5, username := "dana", full_name := "", position := "",
                department := "", role := "employee", is_admin := false,
                created_at := none, updated_at := none })
    ∧ ({ access_token := { data := ⟨"dana", "5", "employee"⟩, iat := 0, exp := 1800,
                           sig := "sec|dana|5|employee|0|1800" },
         user := { id := 5, username := "dana", full_name := "", position := "",
                   department := "", role := "employee", is_admin := false,
                   created_at := none, updated_at := none } } : LoginOk)
      = { access_token := { data := ⟨"dana", "5", "employee"⟩, iat := 0, exp := 1800,
                            sig := "sec|dana|5|employee|0|1800" },
          user := { id := 5, username := "dana", full_name := "", position := "",
                    department := "", role := "employee", is_admin := false,
                    created_at := none, updated_at := none } }
    ∧ ({ id := 5, username := "dana", full_name := "", position := "",
         department := "", role := "employee", is_admin := false,
         created_at := none, updated_at := none } : UserSummary)
      = { id := 5, username := "dana", full_name := "", position := "",
          department := "", role := "employee", is_admin := false,
          created_at := none, updated_at := none } :=
  ⟨⟨rfl, rfl⟩, ⟨rfl, rfl⟩,
   (response_excludes_credentials
      { id := some (.int 5), username := some "dana", password_hash := some "pw1" }
      (some "zz") none none []
      (fun a b => a == b) (fun _ _ => true) (fun s => (s.length : Int)) "sec" 0
      ⟨"dana", "pw1"⟩
      { data := ⟨"dana", "5", "employee"⟩, iat := 0, exp := 1800,
        sig := "sec|dana|5|employee|0|1800" }
      { access_token := { data := ⟨"dana", "5", "employee"⟩, iat := 0, exp := 1800,
                          sig := "sec|dana|5|employee|0|1800" },
        user := { id := 5, username := "dana", full_name := "", position := "",
                  department := "", role := "employee", is_admin := false,
                  created_at := none, updated_at := none } }
      { access_token := { data := ⟨"dana", "5", "employee"⟩, iat := 0, exp := 1800,
                          sig := "sec|dana|5|employee|0|1800" },
        user := { id := 5, username := "dana", full_name := "", position := "",
                  department := "", role := "employee", is_admin := false,
                  created_at := none, updated_at := none } }
      { id := 5, username := "dana", full_name := "", position := "",
        department := "", role := "employee", is_admin := false,
        created_at := none, updated_at := none }
      { id := 5, username := "dana", full_name := "", position := "",
        department := "", role := "employee", is_admin := false,
        created_at := none, updated_at := none }).1 rfl rfl,
   (response_excludes_credentials
      { id := some (.int 5), username := some "dana", password_hash := some "pw1" }
      (some "zz") none none []
      (fun a b => a == b) (fun _ _ => true) (fun s => (s.length : Int)) "sec" 0
      ⟨"dana", "pw1"⟩
      { data := ⟨"dana", "5", "employee"⟩, iat := 0, exp := 1800,
        sig := "sec|dana|5|employee|0|1800" }
      { access_token := { data := ⟨"dana", "5", "employee"⟩, iat := 0, exp := 1800,
                          sig := "sec|dana|5|employee|0|1800" },
        user := { id := 5, username := "dana", full_name := "", position := "",
                  department := "", role := "employee", is_admin := false,
                  created_at := none, updated_at := none } }
      { access_token := { data := ⟨"dana", "5", "employee"⟩, iat := 0, exp := 1800,
                          sig := "sec|dana|5|employee|0|1800" },
        user := { id := 5, username := "dana", full_name := "", position := "",
                  department := "", role := "employee", is_admin := false,
                  created_at := none, updated_at := none } }
      { id := 5, username := "dana", full_name := "", position := "",
        department := "", role := "employee", is_admin := false,
        created_at := none, updated_at := none }
      { id := 5, username := "dana", full_name := "", position := "",
        department := "", role := "employee", is_admin := false,
        created_at := none, updated_at := none }).2 rfl rfl⟩

/-- C8: when the stored `id` is present but falsy (the integer 0 or the
empty string), the identifier resolution shared by the login and `/me`
flows (`main.py` lines 125-130 and 226-230) treats it as absent: it
substitutes the string form of the store's internal `_id` when a
(non-empty) one exists, and otherwise falls back to the integer 0 — a
stored id of 0 is never used directly. -/
theorem falsy_id_fallback (u : UserRecord) (v : PyVal)
    (hid : u.id = some v) (hfalsy : v.truthy = false) :
    (∀ s, u.oid = some s → s ≠ "" → resolveUserId u = .str s)
    ∧ (u.oid = none → resolveUserId u = .int 0) := by
  constructor
  · intro s hoid hs
    simp only [resolveUserId, hid, Option.getD_some, hfalsy, Bool.not_false,
      if_true, hoid]
    simp [PyVal.truthy, hs]
  · intro hoid
    simp only [resolveUserId, hid, Option.getD_some, hfalsy, Bool.not_false,
      if_true, hoid]

theorem falsy_id_fallback_witness :
    resolveUserId { id := some (.int 0), oid := some "cafe", username := some "gail" }
      = .str "cafe"
    ∧ resolveUserId { id := some (.str ""), username := some "hank" } = .int 0 :=
  ⟨(falsy_id_fallback
      { id := some (.int 0), oid := some "cafe", username := some "gail" }
      (.int 0) rfl (by decide)).1 "cafe" rfl (by decide),
   (falsy_id_fallback
      { id := some (.str ""), username := some "hank" }
      (.str "") rfl (by decide)).2 rfl⟩

/-- C9: for an otherwise-valid login against a record whose `role` key
is present but null and which has no role reference resolving to a named
role, the role name stays Python `None`, `role_name.lower()` raises, and
the blanket handler turns the request into the 500 `internalError`
outcome — the "employee" default applies only when the `role` key is
missing entirely. -/
theorem null_role_internal_error
    (db : DB) (vp : String → String → Bool) (h : String → Int)
    (secret : String) (now : Nat) (req : LoginRequest) (u : UserRecord) (c : String)
    (hf : findUser db req.username = some u)
    (hc : extractCred u = some c)
    (hv : vp req.password c = true)
    (ha : isInactive u = false) :
    (resolveRole db.roles u = none →
      login db vp h secret now req = .error .internalError)
    ∧ (u.role = some none → u.role_id = none → resolveRole db.roles u = none)
    ∧ (u.role = none → u.role_id = none → resolveRole db.roles u = some "employee")
    ∧ AuthErr.internalError.httpStatus = 500 := by
  refine ⟨?_, ?_, ?_, rfl⟩
  · intro hrole
    simp [login, hf, hc, hv, ha, loginSuccess, hrole]
  · intro h1 h2; simp [resolveRole, h1, h2]
  · intro h1 h2; simp [resolveRole, h1, h2]

theorem null_role_internal_error_witness :
    login ⟨[{ username := some "erin", password_hash := some "pw", role := some none }], []⟩
        (fun a b => a == b) (fun s => (s.length : Int)) "sec" 0 ⟨"erin", "pw"⟩
      = .error .internalError
    ∧ resolveRole [] { username := some "erin", password_hash := some "pw", role := some none }
      = none
    ∧ resolveRole [] { username := some "frank", password_hash := some "pw" }
      = some "employee" :=
  ⟨(null_role_internal_error
      ⟨[{ username := some "erin", password_hash := some "pw", role := some none }], []⟩
      (fun a b => a == b) (fun s => (s.length : Int)) "sec" 0 ⟨"erin", "pw"⟩
      { username := some "erin", password_hash := some "pw", role := some none } "pw"
      (by decide) (by decide) (by decide) (by decide)).1 (by decide),
   (null_role_internal_error
      ⟨[{ username := some "erin", password_hash := some "pw", role := some none }], []⟩
      (fun a b => a == b) (fun s => (s.length : Int)) "sec" 0 ⟨"erin", "pw"⟩
      { username := some "erin", password_hash := some "pw", role := some none } "pw"
      (by decide) (by decide) (by decide) (by decide)).2.1 rfl rfl,
   (null_role_internal_error
      ⟨[{ username := some "frank", password_hash := some "pw" }], []⟩
      (fun a b => a == b) (fun s => (s.length : Int)) "sec" 0 ⟨"frank", "pw"⟩
      { username := some "frank", password_hash := some "pw" } "pw"
      (by decide) (by decide) (by decide) (by decide)).2.2.1 rfl rfl⟩

/-- C10: a `/me` request whose token validates but whose subject matches
no user record fails with the distinct 404 "User not found" outcome,
while a missing/invalid token fails with the 401 unauthorized outcome —
the two are different error kinds. -/
theorem me_unknown_subject_not_found
    (db : DB) (h : String → Int) (secret : String) (now : Nat)
    (tok tok' : Token) (payload : TokenData)
    (hd : decode_access_token secret now tok = some payload)
    (hn : db.users.find? (fun u => u.username == some payload.sub) = none) :
    get_current_user db h secret now tok = .error .notFound
    ∧ MeErr.notFound.httpStatus = 404
    ∧ (decode_access_token secret now tok' = none →
        get_current_user db h secret now tok' = .error .unauthorized)
    ∧ MeErr.unauthorized.httpStatus = 401
    ∧ MeErr.notFound ≠ MeErr.unauthorized := by
  refine ⟨?_, rfl, ?_, rfl, by decide⟩
  · simp [get_current_user, hd, hn]
  · intro hd'; simp [get_current_user, hd']

theorem me_unknown_subject_not_found_witness :
    get_current_user ⟨[{ username := some "alice", password_hash := some "pw" }], []⟩
        (fun s => (s.length : Int)) "sec" 0
        { data := ⟨"ghost", "1", "employee"⟩, iat := 0, exp := 1800,
          sig := "sec|ghost|1|employee|0|1800" }
      = .error .notFound
    ∧ get_current_user ⟨[{ username := some "alice", password_hash := some "pw" }], []⟩
        (fun s => (s.length : Int)) "sec" 0
        { data := ⟨"alice", "1", "employee"⟩, iat := 0, exp := 1800, sig := "bad" }
      = .error .unauthorized :=
  ⟨(me_unknown_subject_not_found
      ⟨[{ username := some "alice", password_hash := some "pw" }], []⟩
      (fun s => (s.length : Int)) "sec" 0
      { data := ⟨"ghost", "1", "employee"⟩, iat := 0, exp := 1800,
        sig := "sec|ghost|1|employee|0|1800" }
      { data := ⟨"alice", "1", "employee"⟩, iat := 0, exp := 1800, sig := "bad" }
      ⟨"ghost", "1", "employee"⟩ (by decide) (by decide)).1,
   (me_unknown_subject_not_found
      ⟨[{ username := some "alice", password_hash := some "pw" }], []⟩
      (fun s => (s.length : Int)) "sec" 0
      { data := ⟨"ghost", "1", "employee"⟩, iat := 0, exp := 1800,
        sig := "sec|ghost|1|employee|0|1800" }
      { data := ⟨"alice", "1", "employee"⟩, iat := 0, exp := 1800, sig := "bad" }
      ⟨"ghost", "1", "employee"⟩ (by decide) (by decide)).2.2.1 (by decide)⟩

end ProcAuth
